import Mathlib

/-!
Verification development for the SteelMC bootstrap layer: the connection
lifecycle and shutdown-coordination subsystem (`steel/src/lib.rs` and
`steel-nylium/src/main.rs`).

The asynchronous primitives are embedded shallowly:

* a cancellation token is its path from the root of the hierarchy, and the
  global cancellation state is the list of tokens on which `cancel` was called;
* the task tracker (drain barrier) is a record of its closed flag and the
  sets of outstanding and finished registered tasks, driven by an operation
  trace;
* the accept loop of `SteelServer::start` is a function over the list of
  outcomes of its `select!` race (cancellation observed, accept error,
  accept success).
-/

namespace SteelMC


/-! Section: cancellation hierarchy.

Modelled from the spec: `CancellationToken` comes from `tokio_util`, whose
implementation is not part of this repository.  The spec describes the
semantics: a tree of signals where `cancel()` on a node marks the node itself
and is observed by all of its descendants, while children hold a reference to
their parent and never affect it or their siblings.  A token is identified by
its path of child indices from the root; the cancellation state is the list of
tokens explicitly cancelled so far. -/

/-- A cancellation token, identified by its path of child indices from the
root of the hierarchy. -/
abbrev Token := List Nat

/-- The root cancellation token created in `SteelServer::new`. -/
def rootToken : Token := []

/-- Derive the `i`-th child of token `t` (`cancel_token.child_token()`). -/
def childToken (t : Token) (i : Nat) : Token := t ++ [i]

/-- The global cancellation state: the tokens on which `cancel` was called. -/
abbrev CancelState := List Token

/-- The initial cancellation state: nothing cancelled. -/
def initialCancelState : CancelState := []

/-- Relation `ancestorOf p t`: `p` is an ancestor of `t` in the hierarchy
(including `t` itself): `t`'s path extends `p`'s path. -/
def ancestorOf : Token → Token → Bool
  | [], _ => true
  | _ :: _, [] => false
  | a :: p, b :: t => a == b && ancestorOf p t

/-- Mark the token itself as cancelled (`CancellationToken::cancel`). -/
def cancel (t : Token) (st : CancelState) : CancelState := t :: st

/-- Observation `CancellationToken::is_cancelled` (equally, `cancelled().await` having resolved):
a token reports cancelled when it or one of its ancestors was cancelled. -/
def isCancelled (t : Token) (st : CancelState) : Bool :=
  st.any fun p => ancestorOf p t

/-! Section: the steel server and its lifecycle (`steel/src/lib.rs`). -/

/-- The main server struct `SteelServer` (`lib.rs` lines 21-28): the fields
this development observes are the cancellation token for graceful shutdown and
the bind address.  The shared server state `Arc<Server>` is opaque to the
core and is represented by an abstract tag. -/
structure SteelServer where
  cancel_token : Token
  server : Nat
  bind_address : Nat
  deriving Repr, DecidableEq

/-- Constructor `SteelServer::new` (`lib.rs` lines 35-46): creates a fresh root
cancellation token and stores the configured bind address. -/
def SteelServer.new (serverState : Nat) (bindAddress : Nat) : SteelServer :=
  { cancel_token := rootToken, server := serverState, bind_address := bindAddress }

/-- Method `SteelServer::stop` (`lib.rs` lines 101-103): cancels the server's root
cancellation token, and does nothing else.  It is a plain synchronous function
with no failure path. -/
def SteelServer.stop (s : SteelServer) (st : CancelState) : CancelState :=
  cancel s.cancel_token st

/-! Section: the connection acceptor loop (`lib.rs` lines 65-97).

The loop body is a `select!` race between `cancel_token.cancelled()` and
`tcp_listener.accept()`.  Its environment is embedded as the list of outcomes
of that race, in order: cancellation observed, accept returned `Err`, or
accept returned `Ok` together with whether `set_nodelay` succeeds. -/

/-- An entry of the log produced by `log::warn!` / `log::info!` calls. -/
inductive LogEntry where
  | warn (msg : String)
  | info (msg : String)
  deriving Repr, DecidableEq

/-- One outcome of the `select!` race at the head of the accept loop. -/
inductive AcceptEvent where
  | cancelObserved : AcceptEvent
  | acceptFailed : AcceptEvent
  | accepted (connection address : Nat) (nodelayOk : Bool) : AcceptEvent
  deriving Repr, DecidableEq

/-- The outcome of handling one successfully accepted connection
(`lib.rs` lines 80-91): the `JavaTcpClient` constructed at line 83 and the
two packet tasks started at lines 88-89. -/
structure AcceptedConn where
  connection : Nat
  address : Nat
  clientId : Nat
  nodelayWarned : Bool
  childSignal : Token
  trackerHandle : Bool
  outgoingTaskStarted : Bool
  incomingTaskStarted : Bool
  deriving Repr, DecidableEq

/-- The acceptor's loop state: the `client_id` counter (`lib.rs` line 68),
the connections accepted so far, and the log emitted so far. -/
structure AcceptorState where
  clientId : Nat
  accepted : List AcceptedConn
  log : List LogEntry
  deriving Repr, DecidableEq

/-- The state at loop entry: `client_id = 0`, nothing accepted, no log. -/
def initAcceptorState : AcceptorState :=
  { clientId := 0, accepted := [], log := [] }

/-- Handling of one `Ok((connection, address))` accept result
(`lib.rs` lines 80-91): warn if `set_nodelay` failed, construct the client
with the current `client_id`, a fresh child token of the root, and a clone of
the task tracker handle, log the acceptance, advance `client_id` by
`wrapping_add(1)` on its `w`-bit unsigned type, and start the outgoing and
incoming packet tasks. -/
def processAccept (w : Nat) (st : AcceptorState) (conn addr : Nat)
    (nodelayOk : Bool) : AcceptorState :=
  let log1 := if nodelayOk then st.log
    else st.log ++ [LogEntry.warn "Failed to set TCP_NODELAY"]
  let client : AcceptedConn :=
    { connection := conn
      address := addr
      clientId := st.clientId
      nodelayWarned := !nodelayOk
      childSignal := childToken rootToken st.accepted.length
      trackerHandle := true
      outgoingTaskStarted := true
      incomingTaskStarted := true }
  { clientId := (st.clientId + 1) % 2 ^ w
    accepted := st.accepted ++ [client]
    log := log1 ++ [LogEntry.info "Accepted connection from Java Edition"] }

/-- The result of running the acceptor task: the loop state at exit, whether
the loop body's `break` ran (it only does on cancellation), whether
`server_handle` was awaited after the loop (`lib.rs` line 95), and the race
outcomes the loop never consumed. -/
structure AcceptorRun where
  state : AcceptorState
  exitedLoop : Bool
  serverHandleAwaited : Bool
  remaining : List AcceptEvent
  deriving Repr, DecidableEq

/-- The accept loop (`lib.rs` lines 71-95): race cancellation against accept;
`break` on cancellation then await the simulation loop's handle; `continue`
on an accept error; handle a successful accept and loop again. -/
def acceptLoop (w : Nat) (st : AcceptorState) :
    List AcceptEvent → AcceptorRun
  | [] => { state := st, exitedLoop := false, serverHandleAwaited := false, remaining := [] }
  | AcceptEvent.cancelObserved :: rest =>
      { state := st, exitedLoop := true, serverHandleAwaited := true, remaining := rest }
  | AcceptEvent.acceptFailed :: rest => acceptLoop w st rest
  | AcceptEvent.accepted conn addr ok :: rest =>
      acceptLoop w (processAccept w st conn addr ok) rest

/-- The connections accepted by a full run of the acceptor started in its
initial state. -/
def acceptedList (w : Nat) (events : List AcceptEvent) : List AcceptedConn :=
  (acceptLoop w initAcceptorState events).state.accepted

/-! Section: `SteelServer::start` (`lib.rs` lines 49-98).

`start` spawns the simulation loop with a plain `tokio::spawn` (line 52),
binds the listener — `.expect("Failed to bind to server address")` panics on
failure (lines 61-63) — and only then spawns the acceptor with a plain
`spawn` (line 65).  Neither spawn goes through the `task_tracker` parameter;
the tracker handle is only cloned into each accepted connection's
`JavaTcpClient` (line 83). -/

/-- The kind of task spawned directly by `SteelServer::start`. -/
inductive SpawnKind where
  | simLoop
  | acceptor
  deriving Repr, DecidableEq

/-- A task spawned by `start`, with whether the spawn was registered with the
task tracker (drain barrier). -/
structure Spawned where
  kind : SpawnKind
  tracked : Bool
  deriving Repr, DecidableEq

/-- The observable outcome of `SteelServer::start`: the tasks it spawned, the
panic message if binding failed, and the acceptor's run when it was
spawned. -/
structure StartOutcome where
  spawns : List Spawned
  panicMsg : Option String
  acceptorRun : Option AcceptorRun
  deriving Repr, DecidableEq

/-- Embedding of `SteelServer::start` (`lib.rs` lines 49-98).  `bindOk` is whether
`TcpListener::bind` succeeds; `events` drives the acceptor's `select!`
race. -/
def SteelServer.start (_s : SteelServer) (w : Nat) (bindOk : Bool)
    (events : List AcceptEvent) : StartOutcome :=
  let spawns := [({ kind := SpawnKind.simLoop, tracked := false } : Spawned)]
  if bindOk then
    { spawns := spawns ++ [{ kind := SpawnKind.acceptor, tracked := false }]
      panicMsg := none
      acceptorRun := some (acceptLoop w initAcceptorState events) }
  else
    { spawns := spawns
      panicMsg := some "Failed to bind to server address"
      acceptorRun := none }

/-- The connections accepted over the whole run of a `start` outcome. -/
def acceptedConnections (o : StartOutcome) : List AcceptedConn :=
  match o.acceptorRun with
  | none => []
  | some r => r.state.accepted

/-! Section: the drain barrier (task tracker).

Modelled from the spec: `TaskTracker` comes from `tokio_util`, whose
implementation is not part of this repository.  Spec §3 and §4.4 describe the
semantics: a shared registry of outstanding asynchronous work; once closed no
new work may be registered (a later registration is rejected); `wait` resolves
only when every registered unit has completed. -/

/-- The drain barrier state: whether it is closed, the registered tasks still
outstanding, and the registered tasks that have completed. -/
structure TaskTracker where
  closed : Bool
  outstanding : List Nat
  finished : List Nat
  deriving Repr, DecidableEq

/-- Constructor `TaskTracker::new` (`main.rs` line 55): open and empty. -/
def TaskTracker.new : TaskTracker :=
  { closed := false, outstanding := [], finished := [] }

/-- Register a task with the tracker; rejected once the tracker is closed. -/
def TaskTracker.register (tr : TaskTracker) (i : Nat) : TaskTracker :=
  if tr.closed then tr else { tr with outstanding := i :: tr.outstanding }

/-- Method `TaskTracker::close` (`main.rs` line 57). -/
def TaskTracker.close (tr : TaskTracker) : TaskTracker :=
  { tr with closed := true }

/-- A registered task runs to completion. -/
def TaskTracker.complete (tr : TaskTracker) (i : Nat) : TaskTracker :=
  if i ∈ tr.outstanding then
    { tr with outstanding := tr.outstanding.erase i, finished := i :: tr.finished }
  else tr

/-- Resolution of `wait().await` (`main.rs` line 58): it resolves exactly when the tracker is
closed and no registered task remains outstanding. -/
def TaskTracker.waitResolved (tr : TaskTracker) : Bool :=
  tr.closed && tr.outstanding.isEmpty

/-- One step of the environment acting on the drain barrier. -/
inductive TrackerOp where
  | register (i : Nat)
  | complete (i : Nat)
  | close
  deriving Repr, DecidableEq

/-- Run a trace of operations against a tracker state. -/
def runTracker : List TrackerOp → TaskTracker → TaskTracker
  | [], tr => tr
  | TrackerOp.register i :: ops, tr => runTracker ops (tr.register i)
  | TrackerOp.complete i :: ops, tr => runTracker ops (tr.complete i)
  | TrackerOp.close :: ops, tr => runTracker ops tr.close

/-- The tasks a trace successfully registers: those whose `register` step
found the tracker still open. -/
def registeredIds : List TrackerOp → TaskTracker → List Nat
  | [], _ => []
  | TrackerOp.register i :: ops, tr =>
      (if tr.closed then [] else [i]) ++ registeredIds ops (tr.register i)
  | TrackerOp.complete i :: ops, tr => registeredIds ops (tr.complete i)
  | TrackerOp.close :: ops, tr => registeredIds ops tr.close

/-! Section: the plugin-host adapter (`steel-nylium/src/main.rs`). -/

/-- A configuration or game-rule field value (`nylium_adapter::FieldValue`
as used by `main.rs`). -/
inductive FieldValue where
  | number (n : Int)
  | string (s : String)
  | boolean (b : Bool)
  deriving Repr, DecidableEq

/-- The configuration keys enumerated at `main.rs` lines 231-243. -/
inductive SteelConfigKeys where
  | ServerPort
  | Seed
  | MaxPlayers
  | ViewDistance
  | SimulationDistance
  | OnlineMode
  | Encryption
  | Motd
  | UseFavicon
  | Favicon
  | EnforceSecureChat
  deriving Repr, DecidableEq

/-- The fields of the global `STEEL_CONFIG` read by `get_config_value`
(`main.rs` lines 141-159). -/
structure SteelConfig where
  server_port : Nat
  seed : String
  max_players : Nat
  view_distance : Nat
  simulation_distance : Nat
  online_mode : Bool
  encryption : Bool
  motd : String
  use_favicon : Bool
  favicon : String
  enforce_secure_chat : Bool
  deriving Repr, DecidableEq

/-- The game-rule keys matched at `main.rs` lines 171-221. -/
inductive GameRuleKeys where
  | AnnounceAdvancements
  | BlockExplosionDropDecay
  | CommandBlockOutput
  | CommandModificationBlockLimit
  | DisableElytraMovementCheck
  | DisableRaids
  | DoDaylightCycle
  | DoEntityDrops
  | DoFireTick
  | DoImmediateRespawn
  | DoInsomnia
  | DoLimitedCrafting
  | DoMobLoot
  | DoMobSpawning
  | DoPatrolSpawning
  | DoTileDrops
  | DoTraderSpawning
  | DoVinesSpread
  | DoWardenSpawning
  | DoWeatherCycle
  | DrowningDamage
  | EnderPearlsVanishOnDeath
  | FallDamage
  | FireDamage
  | ForgiveDeadPlayers
  | FreezeDamage
  | GlobalSoundEvents
  | KeepInventory
  | LavaSourceConversion
  | LogAdminCommands
  | MaxCommandChainLength
  | MaxCommandForkCount
  | MaxEntityCramming
  | MobExplosionDropDecay
  | MobGriefing
  | NaturalRegeneration
  | PlayersNetherPortalCreativeDelay
  | PlayersNetherPortalDefaultDelay
  | PlayersSleepingPercentage
  | ProjectilesCanBreakBlocks
  | RandomTickSpeed
  | ReducedDebugInfo
  | SendCommandFeedback
  | ShowDeathMessages
  | SnowAccumulationHeight
  | SpawnChunkRadius
  | SpawnRadius
  | SpectatorsGenerateChunks
  | TntExplosionDropDecay
  | UniversalAnger
  | WaterSourceConversion
  deriving Repr, DecidableEq

/-- The adapter `SteelServerNylium` (`main.rs` lines 19-24) together with the
ambient state its methods touch: the shared optional server slot, the global
cancellation state mutated through `SteelServer::stop`, and the global
`STEEL_CONFIG`. -/
structure SteelServerNylium where
  server : Option SteelServer
  cancelSt : CancelState
  steelConfig : SteelConfig
  deriving Repr, DecidableEq

/-- Method `SteelServerNylium::stop` (`main.rs` lines 64-68): if the server slot
holds a server, cancel its root token; otherwise do nothing. -/
def SteelServerNylium.stop (s : SteelServerNylium) : SteelServerNylium :=
  match s.server with
  | some steel => { s with cancelSt := steel.stop s.cancelSt }
  | none => s

/-- The body of the task spawned by `SteelServerNylium::start`
(`main.rs` lines 54-61): run `steel.start` with a fresh tracker, close it,
await `wait()`, and only once that has resolved store the server into the
slot.  `ops` is the environment's interleaved activity on the tracker before
the final close. -/
def SteelServerNylium.startTask (s : SteelServerNylium) (steel : SteelServer)
    (ops : List TrackerOp) : SteelServerNylium :=
  let tr := runTracker (ops ++ [TrackerOp.close]) TaskTracker.new
  if tr.waitResolved then { s with server := some steel } else s

/-- A concrete default configuration, used by witnesses. -/
def defaultConfig : SteelConfig :=
  { server_port := 25565
    seed := ""
    max_players := 20
    view_distance := 10
    simulation_distance := 10
    online_mode := true
    encryption := true
    motd := ""
    use_favicon := false
    favicon := ""
    enforce_secure_chat := false }

/-- A concrete adapter state whose server slot is still empty, used by
witnesses. -/
def emptySlotAdapter : SteelServerNylium :=
  { server := none, cancelSt := initialCancelState, steelConfig := defaultConfig }

/-- Embedding of `get_config_value` (`main.rs` lines 141-159): read the matching field of
the global `STEEL_CONFIG`. -/
def SteelServerNylium.get_config_value (s : SteelServerNylium)
    (key : SteelConfigKeys) : FieldValue :=
  match key with
  | SteelConfigKeys.ServerPort => FieldValue.number s.steelConfig.server_port
  | SteelConfigKeys.Seed => FieldValue.string s.steelConfig.seed
  | SteelConfigKeys.MaxPlayers => FieldValue.number s.steelConfig.max_players
  | SteelConfigKeys.ViewDistance => FieldValue.number s.steelConfig.view_distance
  | SteelConfigKeys.SimulationDistance =>
      FieldValue.number s.steelConfig.simulation_distance
  | SteelConfigKeys.OnlineMode => FieldValue.boolean s.steelConfig.online_mode
  | SteelConfigKeys.Encryption => FieldValue.boolean s.steelConfig.encryption
  | SteelConfigKeys.Motd => FieldValue.string s.steelConfig.motd
  | SteelConfigKeys.UseFavicon => FieldValue.boolean s.steelConfig.use_favicon
  | SteelConfigKeys.Favicon => FieldValue.string s.steelConfig.favicon
  | SteelConfigKeys.EnforceSecureChat =>
      FieldValue.boolean s.steelConfig.enforce_secure_chat

/-- Embedding of `set_config_value` (`main.rs` lines 161-163): an empty body behind a
`TODO` comment — it changes nothing. -/
def SteelServerNylium.set_config_value (s : SteelServerNylium)
    (_key : SteelConfigKeys) (_value : FieldValue) : SteelServerNylium :=
  s

/-- Embedding of `get_gamerule_value` (`main.rs` lines 169-223): a fixed table of
constants, independent of any state. -/
def SteelServerNylium.get_gamerule_value (_s : SteelServerNylium)
    (key : GameRuleKeys) : FieldValue :=
  match key with
  | GameRuleKeys.AnnounceAdvancements => FieldValue.boolean true
  | GameRuleKeys.BlockExplosionDropDecay => FieldValue.boolean true
  | GameRuleKeys.CommandBlockOutput => FieldValue.boolean true
  | GameRuleKeys.CommandModificationBlockLimit => FieldValue.number 32768
  | GameRuleKeys.DisableElytraMovementCheck => FieldValue.boolean false
  | GameRuleKeys.DisableRaids => FieldValue.boolean false
  | GameRuleKeys.DoDaylightCycle => FieldValue.boolean true
  | GameRuleKeys.DoEntityDrops => FieldValue.boolean true
  | GameRuleKeys.DoFireTick => FieldValue.boolean true
  | GameRuleKeys.DoImmediateRespawn => FieldValue.boolean false
  | GameRuleKeys.DoInsomnia => FieldValue.boolean true
  | GameRuleKeys.DoLimitedCrafting => FieldValue.boolean false
  | GameRuleKeys.DoMobLoot => FieldValue.boolean true
  | GameRuleKeys.DoMobSpawning => FieldValue.boolean true
  | GameRuleKeys.DoPatrolSpawning => FieldValue.boolean true
  | GameRuleKeys.DoTileDrops => FieldValue.boolean true
  | GameRuleKeys.DoTraderSpawning => FieldValue.boolean true
  | GameRuleKeys.DoVinesSpread => FieldValue.boolean true
  | GameRuleKeys.DoWardenSpawning => FieldValue.boolean true
  | GameRuleKeys.DoWeatherCycle => FieldValue.boolean true
  | GameRuleKeys.DrowningDamage => FieldValue.boolean true
  | GameRuleKeys.EnderPearlsVanishOnDeath => FieldValue.boolean true
  | GameRuleKeys.FallDamage => FieldValue.boolean true
  | GameRuleKeys.FireDamage => FieldValue.boolean true
  | GameRuleKeys.ForgiveDeadPlayers => FieldValue.boolean true
  | GameRuleKeys.FreezeDamage => FieldValue.boolean true
  | GameRuleKeys.GlobalSoundEvents => FieldValue.boolean true
  | GameRuleKeys.KeepInventory => FieldValue.boolean false
  | GameRuleKeys.LavaSourceConversion => FieldValue.boolean false
  | GameRuleKeys.LogAdminCommands => FieldValue.boolean true
  | GameRuleKeys.MaxCommandChainLength => FieldValue.number 65536
  | GameRuleKeys.MaxCommandForkCount => FieldValue.number 65536
  | GameRuleKeys.MaxEntityCramming => FieldValue.number 24
  | GameRuleKeys.MobExplosionDropDecay => FieldValue.boolean true
  | GameRuleKeys.MobGriefing => FieldValue.boolean true
  | GameRuleKeys.NaturalRegeneration => FieldValue.boolean true
  | GameRuleKeys.PlayersNetherPortalCreativeDelay => FieldValue.number 1
  | GameRuleKeys.PlayersNetherPortalDefaultDelay => FieldValue.number 80
  | GameRuleKeys.PlayersSleepingPercentage => FieldValue.number 100
  | GameRuleKeys.ProjectilesCanBreakBlocks => FieldValue.boolean true
  | GameRuleKeys.RandomTickSpeed => FieldValue.number 3
  | GameRuleKeys.ReducedDebugInfo => FieldValue.boolean false
  | GameRuleKeys.SendCommandFeedback => FieldValue.boolean true
  | GameRuleKeys.ShowDeathMessages => FieldValue.boolean true
  | GameRuleKeys.SnowAccumulationHeight => FieldValue.number 1
  | GameRuleKeys.SpawnChunkRadius => FieldValue.number 2
  | GameRuleKeys.SpawnRadius => FieldValue.number 10
  | GameRuleKeys.SpectatorsGenerateChunks => FieldValue.boolean true
  | GameRuleKeys.TntExplosionDropDecay => FieldValue.boolean false
  | GameRuleKeys.UniversalAnger => FieldValue.boolean false
  | GameRuleKeys.WaterSourceConversion => FieldValue.boolean true

/-- Embedding of `set_gamerule_value` (`main.rs` lines 225-227): an empty body behind a
`TODO` comment — it changes nothing. -/
def SteelServerNylium.set_gamerule_value (s : SteelServerNylium)
    (_key : GameRuleKeys) (_value : FieldValue) : SteelServerNylium :=
  s

/-- The root is an ancestor of every token. -/
theorem ancestorOf_root (t : Token) : ancestorOf rootToken t = true := rfl

/-- A single-segment path `[i]` is an ancestor only of tokens whose path
starts with `i`. -/
theorem ancestorOf_child_root (i : Nat) :
    ancestorOf (childToken rootToken i) rootToken = false := rfl

theorem ancestorOf_child_sibling (i j : Nat) (h : i ≠ j) :
    ancestorOf (childToken rootToken i) (childToken rootToken j) = false := by
  simp [childToken, rootToken, ancestorOf, h]

/-- Every token is an ancestor of itself. -/
theorem ancestorOf_self (t : Token) : ancestorOf t t = true := by
  induction t with
  | nil => rfl
  | cons a p ih => simp [ancestorOf, ih]

/-- Claim C2: cancelling the root token makes every child token derived from
it report cancelled, while cancelling one child token neither cancels the
root nor a sibling child token. -/
theorem cancel_root_reaches_children (st : CancelState) (i j : Nat)
    (h : i ≠ j) :
    isCancelled (childToken rootToken i) (cancel rootToken st) = true
      ∧ isCancelled rootToken (cancel (childToken rootToken i) st)
          = isCancelled rootToken st
      ∧ isCancelled (childToken rootToken j) (cancel (childToken rootToken i) st)
          = isCancelled (childToken rootToken j) st := by
  refine ⟨?_, ?_, ?_⟩
  · simp [isCancelled, cancel, ancestorOf_root]
  · simp [isCancelled, cancel, ancestorOf_child_root]
  · simp [isCancelled, cancel, ancestorOf_child_sibling i j h]

/-- Witness for C2 at concrete inputs: two connections' child tokens `0`
and `1`, empty prior cancellation state. -/
theorem cancel_root_reaches_children_witness :
    isCancelled (childToken rootToken 0) (cancel rootToken initialCancelState) = true
      ∧ isCancelled rootToken (cancel (childToken rootToken 0) initialCancelState)
          = isCancelled rootToken initialCancelState
      ∧ isCancelled (childToken rootToken 1) (cancel (childToken rootToken 0) initialCancelState)
          = isCancelled (childToken rootToken 1) initialCancelState :=
  cancel_root_reaches_children initialCancelState 0 1 (by decide)

/-- Claim C7: `stop()` is idempotent and infallible.  It is a total function
(no error, no panic, no blocking is modelled because the source is a single
non-async call), a second call changes nothing observable — every token
reports exactly the same cancellation status as after the first call — and
after any call the server's root token is in the cancelled state, which is
also the entire effect of calling it before `start()`. -/
theorem stop_idempotent (s : SteelServer) (st : CancelState) (u : Token) :
    isCancelled u (s.stop (s.stop st)) = isCancelled u (s.stop st)
      ∧ isCancelled s.cancel_token (s.stop st) = true := by
  constructor
  · simp [SteelServer.stop, cancel, isCancelled]
  · simp [SteelServer.stop, cancel, isCancelled, ancestorOf_self]

/-- Claim C5: when the acceptor observes root cancellation, the loop breaks
at once: the state is unchanged, `server_handle` is awaited, and none of the
later race outcomes is consumed; in particular if every earlier outcome was a
failed accept (no connection was accepted yet), the acceptor exits with its
start state — zero accepted connections when started from the initial
state. -/
theorem cancel_terminates_acceptor (w : Nat) (st : AcceptorState)
    (before after : List AcceptEvent)
    (hbefore : ∀ e ∈ before, e = AcceptEvent.acceptFailed) :
    acceptLoop w st (before ++ AcceptEvent.cancelObserved :: after)
      = { state := st, exitedLoop := true, serverHandleAwaited := true,
          remaining := after } := by
  induction before with
  | nil => rfl
  | cons e rest ih =>
      have he : e = AcceptEvent.acceptFailed := hbefore e (List.mem_cons_self e rest)
      subst he
      exact ih fun e hmem => hbefore e (List.mem_cons_of_mem _ hmem)

/-- Witness for C5: one transient accept failure, then cancellation, then a
would-be connection that is never accepted; the acceptor exits with zero
accepted connections. -/
theorem cancel_terminates_acceptor_witness :
    acceptLoop 8 initAcceptorState
        ([AcceptEvent.acceptFailed]
          ++ AcceptEvent.cancelObserved :: [AcceptEvent.accepted 5 6 true])
      = { state := initAcceptorState, exitedLoop := true,
          serverHandleAwaited := true,
          remaining := [AcceptEvent.accepted 5 6 true] } :=
  cancel_terminates_acceptor 8 initAcceptorState _ _ (by decide)

/-- Counterexample to claim C6 as stated: the code does not log a failed
accept.  At the concrete input of a single failed accept from the initial
state, the loop continues (no exit) but the log stays empty — there is no
call to the logger on the `Err` branch of `accept_result`
(`lib.rs` lines 77-79), so "logs the error" is false. -/
theorem accept_failure_not_logged :
    (acceptLoop 8 initAcceptorState [AcceptEvent.acceptFailed]).state.log = []
      ∧ (acceptLoop 8 initAcceptorState [AcceptEvent.acceptFailed]).exitedLoop
          = false := by
  decide

/-- Claim C6 amended: a failed accept call makes the loop continue to the
next iteration with the whole state unchanged — nothing is logged, the loop
does not terminate, and every subsequent outcome (including successful
accepts) is processed exactly as if the failure had not happened. -/
theorem accept_failure_nonfatal (w : Nat) (st : AcceptorState)
    (rest : List AcceptEvent) :
    acceptLoop w st (AcceptEvent.acceptFailed :: rest) = acceptLoop w st rest :=
  rfl

/-- Invariant of the accept loop: if the counter equals the number of accepted
connections reduced modulo `2 ^ w` and every connection accepted so far holds
its acceptance ordinal modulo `2 ^ w` as identifier, then the same holds of
every connection accepted by the rest of the run. -/
theorem acceptLoop_ids (w : Nat) (events : List AcceptEvent)
    (st : AcceptorState)
    (hlen : st.clientId = st.accepted.length % 2 ^ w)
    (hids : ∀ i, ∀ h : i < st.accepted.length,
      (st.accepted[i]).clientId = i % 2 ^ w) :
    ∀ i, ∀ h : i < ((acceptLoop w st events).state.accepted).length,
      (((acceptLoop w st events).state.accepted)[i]).clientId = i % 2 ^ w := by
  induction events generalizing st with
  | nil => exact hids
  | cons ev rest ih =>
      cases ev with
      | cancelObserved => exact hids
      | acceptFailed => exact ih st hlen hids
      | accepted conn addr ok =>
          refine ih _ ?_ ?_
          · simp [processAccept, hlen, Nat.mod_add_mod]
          · intro i h
            simp only [processAccept, List.length_append, List.length_singleton] at h
            rcases Nat.lt_or_ge i st.accepted.length with hi | hi
            · have : (processAccept w st conn addr ok).accepted[i]
                  = st.accepted[i] := by
                simp only [processAccept]
                exact List.getElem_append_left hi
              rw [this]
              exact hids i hi
            · have hieq : i = st.accepted.length := by omega
              subst hieq
              simp only [processAccept]
              rw [List.getElem_concat_length]
              · exact hlen
              · rfl

/-- Claim C4: in any run of the acceptor from its initial state, the `n`-th
accepted connection (counting from 0) receives identifier `n % 2 ^ w` for the
counter's bit width `w`; consequently identifiers start at `0`, follow
acceptance order by post-increment, and before wraparound (`j < 2 ^ w`) they
are strictly increasing, so no two unwrapped connections share one. -/
theorem client_identifiers (w : Nat) (events : List AcceptEvent) (i j : Nat)
    (hij : i < j) (hj : j < (acceptedList w events).length) :
    ((acceptedList w events)[j]).clientId = j % 2 ^ w
      ∧ ((acceptedList w events).get ⟨i, Nat.lt_trans hij hj⟩).clientId
          = i % 2 ^ w
      ∧ (j < 2 ^ w →
          ((acceptedList w events).get ⟨i, Nat.lt_trans hij hj⟩).clientId
            < ((acceptedList w events)[j]).clientId) := by
  have hbase : ∀ k, ∀ h : k < (acceptedList w events).length,
      ((acceptedList w events)[k]).clientId = k % 2 ^ w := by
    intro k h
    exact acceptLoop_ids w events initAcceptorState rfl (by intro i h; simp [initAcceptorState] at h) k h
  have hi : i < (acceptedList w events).length := Nat.lt_trans hij hj
  refine ⟨hbase j hj, ?_, ?_⟩
  · rw [List.get_eq_getElem]
    exact hbase i hi
  · intro hwrap
    rw [List.get_eq_getElem]
    rw [hbase i hi, hbase j hj]
    rw [Nat.mod_eq_of_lt (Nat.lt_trans hij hwrap), Nat.mod_eq_of_lt hwrap]
    exact hij

/-- Witness for C4: three connections accepted in order on an 8-bit counter
receive identifiers `0` and `2` at positions `0` and `2` (`0 % 256` and
`2 % 256`), strictly increasing. -/
theorem client_identifiers_witness :
    ((acceptedList 8 [AcceptEvent.accepted 10 20 true,
        AcceptEvent.accepted 11 21 true,
        AcceptEvent.accepted 12 22 true]).get ⟨2, by decide⟩).clientId
        = 2 % 2 ^ 8
      ∧ ((acceptedList 8 [AcceptEvent.accepted 10 20 true,
          AcceptEvent.accepted 11 21 true, AcceptEvent.accepted 12 22 true]).get
            ⟨0, by decide⟩).clientId = 0 % 2 ^ 8
      ∧ (2 < 2 ^ 8 →
          ((acceptedList 8 [AcceptEvent.accepted 10 20 true,
            AcceptEvent.accepted 11 21 true, AcceptEvent.accepted 12 22 true]).get
              ⟨0, by decide⟩).clientId
            < ((acceptedList 8 [AcceptEvent.accepted 10 20 true,
                AcceptEvent.accepted 11 21 true,
                AcceptEvent.accepted 12 22 true]).get ⟨2, by decide⟩).clientId) :=
  client_identifiers 8 _ 0 2 (by decide) (by decide)

/-- Claim C8: a `set_nodelay` failure on an accepted connection is non-fatal:
the client is still constructed with the current identifier, its child token
and the tracker handle, both packet tasks are started, only a warning is
added to the log, and the accepted-connection identifiers and the counter
evolve exactly as they would had `set_nodelay` succeeded. -/
theorem nodelay_failure_nonfatal (w : Nat) (st : AcceptorState)
    (conn addr : Nat) :
    (processAccept w st conn addr false).accepted
        = st.accepted
            ++ [{ connection := conn, address := addr, clientId := st.clientId,
                  nodelayWarned := true,
                  childSignal := childToken rootToken st.accepted.length,
                  trackerHandle := true,
                  outgoingTaskStarted := true, incomingTaskStarted := true }]
      ∧ (processAccept w st conn addr false).log
          = st.log ++ [LogEntry.warn "Failed to set TCP_NODELAY",
                       LogEntry.info "Accepted connection from Java Edition"]
      ∧ (processAccept w st conn addr false).accepted.map AcceptedConn.clientId
          = (processAccept w st conn addr true).accepted.map AcceptedConn.clientId
      ∧ (processAccept w st conn addr false).clientId
          = (processAccept w st conn addr true).clientId := by
  refine ⟨rfl, by simp [processAccept], by simp [processAccept], rfl⟩

/-- Claim C3: when binding the listening socket fails, `start` aborts with
the descriptive panic message of `lib.rs` line 63 rather than silently
returning, the acceptor task is never spawned, and no connection is ever
accepted. -/
theorem bind_failure_fatal (s : SteelServer) (w : Nat)
    (events : List AcceptEvent) :
    (s.start w false events).panicMsg = some "Failed to bind to server address"
      ∧ (∀ t ∈ (s.start w false events).spawns, t.kind ≠ SpawnKind.acceptor)
      ∧ acceptedConnections (s.start w false events) = [] := by
  refine ⟨rfl, ?_, rfl⟩
  intro t ht
  simp [SteelServer.start] at ht
  simp [ht]

/-- Tracker invariant: a task that was successfully registered, or is already
recorded in the state, stays recorded (outstanding or finished) along any
trace. -/
theorem runTracker_mem (ops : List TrackerOp) (tr : TaskTracker) (i : Nat)
    (h : i ∈ registeredIds ops tr ∨ i ∈ tr.outstanding ∨ i ∈ tr.finished) :
    i ∈ (runTracker ops tr).outstanding ∨ i ∈ (runTracker ops tr).finished := by
  induction ops generalizing tr with
  | nil =>
      rcases h with h | h
      · simp [registeredIds] at h
      · exact h
  | cons op ops ih =>
      cases op with
      | register j =>
          apply ih
          by_cases hc : tr.closed
          · rcases h with h | h | h
            · simp [registeredIds, hc] at h
              exact Or.inl h
            · exact Or.inr (Or.inl (by simp [TaskTracker.register, hc, h]))
            · exact Or.inr (Or.inr (by simp [TaskTracker.register, hc, h]))
          · rcases h with h | h | h
            · simp [registeredIds, hc] at h
              rcases h with h | h
              · subst h
                exact Or.inr (Or.inl (by simp [TaskTracker.register, hc]))
              · exact Or.inl h
            · exact Or.inr (Or.inl (by simp [TaskTracker.register, hc, h]))
            · exact Or.inr (Or.inr (by simp [TaskTracker.register, hc, h]))
      | complete j =>
          apply ih
          by_cases hj : j ∈ tr.outstanding
          · rcases h with h | h | h
            · exact Or.inl (by simpa [registeredIds] using h)
            · by_cases hij : i = j
              · subst hij
                exact Or.inr (Or.inr (by simp [TaskTracker.complete, hj]))
              · refine Or.inr (Or.inl ?_)
                simp only [TaskTracker.complete, hj, if_pos]
                exact (List.mem_erase_of_ne hij).mpr h
            · exact Or.inr (Or.inr (by simp [TaskTracker.complete, hj, h]))
          · rcases h with h | h | h
            · exact Or.inl (by simpa [registeredIds] using h)
            · exact Or.inr (Or.inl (by simp [TaskTracker.complete, hj, h]))
            · exact Or.inr (Or.inr (by simp [TaskTracker.complete, hj, h]))
      | close =>
          apply ih
          rcases h with h | h | h
          · exact Or.inl (by simpa [registeredIds] using h)
          · exact Or.inr (Or.inl (by simp [TaskTracker.close, h]))
          · exact Or.inr (Or.inr (by simp [TaskTracker.close, h]))

/-- Counterexample to claim C1 as stated: the claim says the tasks registered
with the drain barrier include the main simulation loop task spawned by
`start()`.  In the code, `start` spawns the simulation loop (and the
acceptor) with plain `tokio::spawn`, outside the tracker: at the concrete
input of a successful bind, `start` registers nothing with the tracker, and
after the `close()` that `SteelServerNylium::start` performs immediately,
`wait()` resolves with an empty completed-task list — it has not awaited the
simulation loop. -/
theorem simloop_not_registered :
    (((SteelServer.new 0 0).start 8 true []).spawns.filter
        fun t => t.tracked) = []
      ∧ ({ kind := SpawnKind.simLoop, tracked := false } : Spawned)
          ∈ ((SteelServer.new 0 0).start 8 true []).spawns
      ∧ (runTracker [TrackerOp.close] TaskTracker.new).waitResolved = true
      ∧ (runTracker [TrackerOp.close] TaskTracker.new).finished = [] := by
  decide

/-- Claim C1 amended: after `stop()`, closing the drain barrier and awaiting
`wait()` returns only after every task previously registered *with the
tracker* has completed — in any trace in which `wait()` has resolved, every
successfully registered task is in the finished set; registering a task on a
closed tracker is rejected as a no-op, so it is never awaited.  The tasks
`start` spawns directly (the simulation loop and the acceptor) are spawned
outside the tracker and are not covered by `wait()`; the tracker handle is
passed on to each accepted connection for its inbound/outbound tasks. -/
theorem drain_barrier_waits (ops : List TrackerOp) (i : Nat)
    (hreg : i ∈ registeredIds ops TaskTracker.new)
    (hwait : (runTracker ops TaskTracker.new).waitResolved = true) :
    i ∈ (runTracker ops TaskTracker.new).finished
      ∧ (∀ tr : TaskTracker, tr.closed = true → ∀ j, tr.register j = tr)
      ∧ (∀ s : SteelServer, ∀ w : Nat, ∀ events : List AcceptEvent,
          ∀ t ∈ (s.start w true events).spawns, t.tracked = false)
      ∧ (∀ c ∈ acceptedConnections ((SteelServer.new 0 0).start 8 true
            [AcceptEvent.accepted 1 2 true]), c.trackerHandle = true) := by
  refine ⟨?_, ?_, ?_, by decide⟩
  · have hmem := runTracker_mem ops TaskTracker.new i (Or.inl hreg)
    rcases hmem with hmem | hmem
    · exfalso
      simp only [TaskTracker.waitResolved, Bool.and_eq_true,
        List.isEmpty_iff] at hwait
      rw [hwait.2] at hmem
      simp at hmem
    · exact hmem
  · intro tr hc j
    simp [TaskTracker.register, hc]
  · intro s w events t ht
    simp [SteelServer.start] at ht
    rcases ht with ht | ht <;> simp [ht]

/-- Witness for the amended C1: one task registered, completed, then the
tracker is closed; `wait()` resolves and the task is in the finished set. -/
theorem drain_barrier_waits_witness :
    (1 : Nat) ∈ (runTracker [TrackerOp.register 1, TrackerOp.complete 1,
        TrackerOp.close] TaskTracker.new).finished
      ∧ (∀ tr : TaskTracker, tr.closed = true → ∀ j, tr.register j = tr)
      ∧ (∀ s : SteelServer, ∀ w : Nat, ∀ events : List AcceptEvent,
          ∀ t ∈ (s.start w true events).spawns, t.tracked = false)
      ∧ (∀ c ∈ acceptedConnections ((SteelServer.new 0 0).start 8 true
            [AcceptEvent.accepted 1 2 true]), c.trackerHandle = true) :=
  drain_barrier_waits [TrackerOp.register 1, TrackerOp.complete 1,
    TrackerOp.close] 1 (by decide) (by decide)

/-- Claim C9: while the server slot is still `None` — which it is until the
background task's `wait()` has resolved and it stored the server — the
adapter's `stop()` is a no-op: the whole state, and in particular the
cancellation status of every token, is unchanged. -/
theorem stop_noop_before_slot_filled (s : SteelServerNylium)
    (h : s.server = none) :
    s.stop = s
      ∧ ∀ t : Token, isCancelled t s.stop.cancelSt = isCancelled t s.cancelSt := by
  constructor
  · simp [SteelServerNylium.stop, h]
  · intro t
    simp [SteelServerNylium.stop, h]

/-- Witness for C9 at a concrete adapter state with an empty slot. -/
theorem stop_noop_before_slot_filled_witness :
    emptySlotAdapter.stop = emptySlotAdapter
      ∧ ∀ t : Token,
          isCancelled t emptySlotAdapter.stop.cancelSt
            = isCancelled t emptySlotAdapter.cancelSt :=
  stop_noop_before_slot_filled emptySlotAdapter rfl

/-- Claim C10: `set_config_value` and `set_gamerule_value` are no-ops: for
every key and value the adapter state is returned unchanged, so every later
`get_config_value` and `get_gamerule_value` answers exactly as before the
set, and every other part of the adapter state is untouched. -/
theorem set_values_noop (s : SteelServerNylium) (ck : SteelConfigKeys)
    (gk : GameRuleKeys) (v : FieldValue) (ck2 : SteelConfigKeys)
    (gk2 : GameRuleKeys) :
    s.set_config_value ck v = s
      ∧ s.set_gamerule_value gk v = s
      ∧ (s.set_config_value ck v).get_config_value ck2 = s.get_config_value ck2
      ∧ (s.set_gamerule_value gk v).get_gamerule_value gk2
          = s.get_gamerule_value gk2
      ∧ (s.set_config_value ck v).server = s.server
      ∧ (s.set_gamerule_value gk v).cancelSt = s.cancelSt :=
  ⟨rfl, rfl, rfl, rfl, rfl, rfl⟩

end SteelMC
